import Mathlib

set_option maxRecDepth 8192

/- Shallow embedding of the LangGraph human-in-the-loop flight-search repository.
   The node functions come from src/main.ts (cyclic variant) and from the linear
   variant (src/unnamed/part_000 and src/main.js). The workflow engine itself is
   a library dependency that is not part of the repository source, so it is
   modelled from the specification of the suspend/checkpoint/resume protocol. -/

/- Document model, from the data-ingestion module (src/unnamed/part_000,
   exported types DocumentMetadata and Document): a page content string plus a
   metadata record of optional flight attributes. -/

structure DocumentMetadata where
  title : Option String := none
  airline : Option String := none
  from_city : Option String := none
  to_city : Option String := none
  airport_code : Option String := none
  airport_name : Option String := none
  price : Option Int := none
  time_approx : Option String := none
  date : Option String := none
deriving DecidableEq, Repr

structure Document where
  pageContent : String
  metadata : DocumentMetadata := {}
deriving DecidableEq, Repr

/- JavaScript semantics helpers. -/

/-- Characters skipped by Number.parseInt before the optional sign. -/
def jsWhitespace (c : Char) : Bool :=
  c == ' ' || c == '\t' || c == '\n' || c == '\r'

def leadingDigits (cs : List Char) : List Char :=
  cs.takeWhile Char.isDigit

def digitsValue (ds : List Char) : Nat :=
  ds.foldl (fun acc c => acc * 10 + (c.toNat - 48)) 0

/-- Number.parseInt(s, 10) on a character list: skip leading whitespace, read
    an optional sign and the longest prefix of decimal digits; none models the
    NaN result. -/
def jsParseIntChars (cs0 : List Char) : Option Int :=
  let cs := cs0.dropWhile jsWhitespace
  match cs with
  | '-' :: rest =>
      if leadingDigits rest = [] then none
      else some (-(digitsValue (leadingDigits rest) : Int))
  | '+' :: rest =>
      if leadingDigits rest = [] then none
      else some ((digitsValue (leadingDigits rest) : Int))
  | _ =>
      if leadingDigits cs = [] then none
      else some ((digitsValue (leadingDigits cs) : Int))

def jsParseInt (s : String) : Option Int :=
  jsParseIntChars s.toList

/-- Whitespace trimming of String.prototype.trim, on a character list. -/
def trimChars (cs : List Char) : List Char :=
  ((cs.dropWhile jsWhitespace).reverse.dropWhile jsWhitespace).reverse

/-- Split of String.prototype.split on a comma; splitting the empty string
    yields one empty piece, as in JavaScript. -/
def splitOnComma : List Char → List (List Char)
  | [] => [[]]
  | c :: rest =>
      if c = ',' then [] :: splitOnComma rest
      else
        match splitOnComma rest with
        | [] => [[c]]
        | p :: ps => (c :: p) :: ps

/-- Test of the anchored digit regex used by disambiguateSelection in
    src/main.ts: the whole string is one or more decimal digits. -/
def isAllDigits (s : String) : Bool :=
  !s.toList.isEmpty && s.toList.all Char.isDigit

/-- Truthiness of a possibly-unset JavaScript string channel: undefined and the
    empty string are falsy, every other string is truthy. -/
def jsTruthyStr : Option String → Bool
  | none => false
  | some s => s ≠ ""

/- Rendering helpers for the final-answer template literal: an unset field
   renders as the text undefined, as in a JavaScript template string. -/

def showOptStr : Option String → String
  | some s => s
  | none => "undefined"

def showOptPrice : Option Int → String
  | some p => toString p
  | none => "undefined"

/-- Rendering of from_city sliced to three characters and upper-cased, with the
    JavaScript fallback to N/A when the result is undefined or empty. -/
def sliceUpper : Option String → String
  | none => "N/A"
  | some s => if (s.take 3).toUpper = "" then "N/A" else (s.take 3).toUpper

/-- Answer template shared by evaluateResults and disambiguateAndAnswer
    (formatFlightDetails in src/unnamed/part_000). -/
def formatFlightDetails (m : DocumentMetadata) : String :=
  "Selected flight: " ++
  (showOptStr m.title ++ " - " ++ showOptStr m.airline ++
   "\n    From: " ++ showOptStr m.from_city ++ " (" ++ sliceUpper m.from_city ++ ")" ++
   "\n    To: " ++ showOptStr m.to_city ++ " (" ++ showOptStr m.airport_code ++ ")" ++
   "\n    Airport: " ++ showOptStr m.airport_name ++
   "\n    Price: $" ++ showOptPrice m.price ++
   "\n    Duration: " ++ showOptStr m.time_approx ++
   "\n    Date: " ++ showOptStr m.date)

/- Cyclic variant (src/main.ts): pure content of the node handlers. -/

/-- LLM fallback path of disambiguateSelection in src/main.ts: split the model
    reply on commas, parse each piece, keep in-range zero-based indices, and
    index into the flight list. -/
def llmFilter (flights : List Document) (llmContent : String) : List Document :=
  let pieces := splitOnComma (trimChars llmContent.toList)
  let selectedNumbers : List Int :=
    (pieces.filterMap
        (fun n => (jsParseIntChars (trimChars n)).map (fun k => k - 1))).filter
      (fun i => decide (0 ≤ i ∧ i < (flights.length : Int)))
  selectedNumbers.filterMap (fun i => flights[i.toNat]?)

/-- Node 4 of src/main.ts: a purely numeric user reply that is in range selects
    that flight directly; otherwise the LLM reply drives llmFilter. -/
def disambiguateSelection (flights : List Document) (userInput llmContent : String) :
    List Document :=
  if isAllDigits userInput then
    match jsParseInt userInput with
    | some k =>
        let selectedIndex : Int := k - 1
        if 0 ≤ selectedIndex ∧ selectedIndex < (flights.length : Int) then
          match flights[selectedIndex.toNat]? with
          | some d => [d]
          | none => llmFilter flights llmContent
        else llmFilter flights llmContent
    | none => llmFilter flights llmContent
  else llmFilter flights llmContent

/-- Question text of the interrupt raised by requestChoice in src/main.ts. -/
def refineQuestion : String :=
  "Refine your search (e.g., \x27I want flights to Japan\x27, \x27Show me the cheapest\x27, or select by number):"

/- Linear variant (src/unnamed/part_000 and src/main.js): pure content of the
   node handlers. -/

/-- Truncation loop of retrieveFlights: push retrieved documents one by one and
    stop as soon as the accumulator holds two of them. -/
def pushUntilTwo (acc : List Document) : List Document → List Document
  | [] => acc
  | d :: rest =>
      let acc' := acc ++ [d]
      if acc'.length ≥ 2 then acc' else pushUntilTwo acc' rest

/-- Node 5 of the linear variant: the LLM reply is parsed as a one-based flight
    number, an out-of-range or unparseable reply falls back to the first
    candidate, and an empty candidate list makes the fallback indexing throw,
    modelled as none. -/
def disambiguateAndAnswer (candidates : List Document) (llmContent : String) :
    Option (Document × String) :=
  let selectedFlight : Option Document :=
    match jsParseInt llmContent with
    | some k =>
        let selectedNumber : Int := k - 1
        if 0 ≤ selectedNumber ∧ selectedNumber < (candidates.length : Int) then
          candidates[selectedNumber.toNat]?
        else candidates[0]?
    | none => candidates[0]?
  match selectedFlight with
  | some d => some (d, formatFlightDetails d.metadata)
  | none => none

/- Workflow engine. The engine is a library dependency of the repository, not
   part of its source, so the definitions below are modelled from the
   specification of the graph model, execution loop, checkpoint store and
   interrupt/resume protocol. -/

/-- Modelled from the spec: result of executing one node handler, which either
    returns a partial state update, raises an interrupt carrying a payload, or
    fails (NodeExecutionError); the engine implementation is a library
    dependency missing from the repository source. -/
inductive NodeOutcome (upd payload : Type) where
  | update (u : upd)
  | interrupt (p : payload)
  | fail
deriving DecidableEq, Repr

/-- Modelled from the spec: outcome of one engine call, either Completed with a
    final state or Suspended with the interrupt payload and the cursor of the
    interrupted node; the remaining constructors model a failing node handler,
    a routing label missing from the label mapping, and fuel exhaustion of the
    bounded loop. -/
inductive Outcome (node state payload : Type) where
  | completed (s : state)
  | suspended (s : state) (p : payload) (cursor : node)
  | nodeError (s : state)
  | routeError (s : state)
  | fuelOut (s : state)
deriving DecidableEq, Repr

/-- Modelled from the spec: protocol errors of the external interface, raised
    on caller misuse without mutating session state. -/
inductive CallError where
  | NoPendingInterruptError
  | ResumeRequiredError
deriving DecidableEq, Repr

deriving instance DecidableEq for Except

/-- Modelled from the spec: a checkpoint holds a state snapshot, the next-node
    cursor and the pending interrupt payload, if any. -/
structure Ckpt (node state payload : Type) where
  state : state
  cursor : node
  pending : Option payload
deriving DecidableEq, Repr

/-- Modelled from the spec: a compiled workflow graph, with the successor of
    the start pseudo-node, the end pseudo-node, the node handlers, the edge
    relation (conditional routing included), the channel merge, and the update
    an interrupted node returns when a resume value is injected into it. -/
structure WGraph (node state upd payload : Type) where
  startNode : node
  endNode : node
  isEnd : node → Bool
  initState : String → state
  nodeRun : node → state → NodeOutcome upd payload
  next : node → state → Option node
  merge : state → upd → state
  resumeReturn : node → String → upd

/-- Modelled from the spec: the checkpoint store is a mapping from session id
    to the single checkpoint of that session. -/
abbrev Store (node state payload : Type) := List (String × Ckpt node state payload)

def lookupStore {k : Type} : List (String × k) → String → Option k
  | [], _ => none
  | (sid', cp) :: rest, sid => if sid' = sid then some cp else lookupStore rest sid

def saveStore {k : Type} : List (String × k) → String → k → List (String × k)
  | [], sid, cp => [(sid, cp)]
  | (sid', cp') :: rest, sid, cp =>
      if sid' = sid then (sid, cp) :: rest else (sid', cp') :: saveStore rest sid cp

/-- Modelled from the spec: the superstep loop walks the graph from the cursor,
    merges each partial update, follows conditional edges on the merged state,
    and stops at the end node, at an interrupt, or at a node failure. The fuel
    bound is a modelling device for the unbounded loop. -/
def runLoop {node state upd payload : Type} (G : WGraph node state upd payload) :
    Nat → state → node → Outcome node state payload
  | 0, s, _ => .fuelOut s
  | fuel + 1, s, c =>
      if G.isEnd c then .completed s
      else
        match G.nodeRun c s with
        | .interrupt p => .suspended s p c
        | .fail => .nodeError s
        | .update u =>
            let s' := G.merge s u
            match G.next c s' with
            | some c' => runLoop G fuel s' c'
            | none => .routeError s'

/-- Modelled from the spec: persistence after a run, saving a checkpoint with a
    pending interrupt on suspension, a cleared checkpoint on completion, and
    leaving the last persisted checkpoint intact when a node handler fails. -/
def afterRun {node state upd payload : Type} (G : WGraph node state upd payload)
    (sid : String) (store : Store node state payload)
    (out : Outcome node state payload) :
    Except CallError (Outcome node state payload) × Store node state payload :=
  match out with
  | .completed s => (.ok out, saveStore store sid ⟨s, G.endNode, none⟩)
  | .suspended s p c => (.ok out, saveStore store sid ⟨s, c, some p⟩)
  | .nodeError _ => (.ok out, store)
  | .routeError _ => (.ok out, store)
  | .fuelOut _ => (.ok out, store)

/-- Modelled from the spec: invoke starts or continues the default path of a
    session and rejects with ResumeRequiredError, leaving the store untouched,
    when the session has a pending interrupt. -/
def invoke {node state upd payload : Type} (G : WGraph node state upd payload)
    (fuel : Nat) (input : String) (sid : String) (store : Store node state payload) :
    Except CallError (Outcome node state payload) × Store node state payload :=
  match lookupStore store sid with
  | some cp =>
      match cp.pending with
      | some _ => (.error .ResumeRequiredError, store)
      | none => afterRun G sid store (runLoop G fuel cp.state cp.cursor)
  | none => afterRun G sid store (runLoop G fuel (G.initState input) G.startNode)

/-- Modelled from the spec: resume continues a suspended session by injecting
    the command value as the return of the interrupted node, without running
    that node from its beginning, and rejects with NoPendingInterruptError,
    leaving the store untouched, when no interrupt is pending. -/
def resume {node state upd payload : Type} (G : WGraph node state upd payload)
    (fuel : Nat) (sid : String) (v : String) (store : Store node state payload) :
    Except CallError (Outcome node state payload) × Store node state payload :=
  match lookupStore store sid with
  | none => (.error .NoPendingInterruptError, store)
  | some cp =>
      match cp.pending with
      | none => (.error .NoPendingInterruptError, store)
      | some _ =>
          let s' := G.merge cp.state (G.resumeReturn cp.cursor v)
          match G.next cp.cursor s' with
          | some c' => afterRun G sid store (runLoop G fuel s' c')
          | none => afterRun G sid store (.routeError s')

/-- Interrupt payload shape used by both variants: an object with a question
    field. -/
structure Prompt where
  question : String
deriving DecidableEq, Repr

/-- Interface of the external collaborators, at the boundary the specification
    gives them: vector search over the index, and the interpretation LLM
    applied to the user free text and the current candidate list. -/
structure Env where
  search : String → Nat → List Document
  llm : String → List Document → String

/- Cyclic variant (src/main.ts): state schema, graph wiring, engine instance. -/

/-- State schema SupportState of src/main.ts; a channel holding none is a
    channel that has not been written yet. -/
structure CState where
  input : Option String := none
  filteredFlights : Option (List Document) := none
  options : Option (List String) := none
  selectedCountry : Option String := none
  selectedCity : Option String := none
  selectedAirport : Option String := none
  userChoice : Option String := none
deriving DecidableEq, Repr

/-- Partial state update of the cyclic variant: only channels present in the
    returned object carry a value. -/
structure CUpdate where
  input : Option String := none
  filteredFlights : Option (List Document) := none
  options : Option (List String) := none
  selectedCountry : Option String := none
  selectedCity : Option String := none
  selectedAirport : Option String := none
  userChoice : Option String := none
deriving DecidableEq, Repr

/-- Modelled from the spec: channel merge with the default overwrite reducer,
    which every channel of both variants uses; a channel present in the update
    replaces the old value and a channel absent from it is untouched. The merge
    step is engine code missing from the repository source. -/
def overwrite {a : Type} (old new : Option a) : Option a :=
  match new with
  | some v => some v
  | none => old

def cMerge (s : CState) (u : CUpdate) : CState where
  input := overwrite s.input u.input
  filteredFlights := overwrite s.filteredFlights u.filteredFlights
  options := overwrite s.options u.options
  selectedCountry := overwrite s.selectedCountry u.selectedCountry
  selectedCity := overwrite s.selectedCity u.selectedCity
  selectedAirport := overwrite s.selectedAirport u.selectedAirport
  userChoice := overwrite s.userChoice u.userChoice

/-- Node ids of src/main.ts; init stands for the node registered under the
    name of the first retrieval node, and endNode for the end pseudo-node. -/
inductive CNode where
  | init
  | showFlights
  | requestChoice
  | disambiguateSelection
  | showFinalFlight
  | endNode
deriving DecidableEq, Repr

/-- Node 2 of src/main.ts: both branches return the current flight list on the
    filteredFlights channel. -/
def showFlights (s : CState) : CUpdate :=
  { filteredFlights := some (s.filteredFlights.getD []) }

/-- Branch test of node 5 of src/main.ts: the no-flight message is printed
    exactly when indexing flights at zero yields no document. -/
def showFinalFlightNoFlight (s : CState) : Bool :=
  ((s.filteredFlights.getD []).head?).isNone

/-- Routing function of the conditional edge attached to showFlights. -/
def showFlightsRouter (s : CState) : String :=
  let flights := s.filteredFlights.getD []
  if flights.length = 1 then "final" else "continue"

/-- Label mapping of the conditional edge attached to showFlights. -/
def showFlightsMapping : String → Option CNode
  | "final" => some .showFinalFlight
  | "continue" => some .requestChoice
  | _ => none

def cNodeRun (env : Env) : CNode → CState → NodeOutcome CUpdate Prompt
  | .init, s => .update { filteredFlights := some (env.search (s.input.getD "") 10) }
  | .showFlights, s => .update (showFlights s)
  | .requestChoice, _ => .interrupt ⟨refineQuestion⟩
  | .disambiguateSelection, s =>
      let flights := s.filteredFlights.getD []
      let userInput := s.userChoice.getD ""
      let filtered := disambiguateSelection flights userInput (env.llm userInput flights)
      .update { filteredFlights := some filtered }
  | .showFinalFlight, _ => .update {}
  | .endNode, _ => .update {}

/-- Edge relation of the cyclic graph: plain edges from the addEdge calls of
    src/main.ts and the conditional edge of showFlights, evaluated on the
    merged state. -/
def cNext : CNode → CState → Option CNode
  | .init, _ => some .showFlights
  | .showFlights, s => showFlightsMapping (showFlightsRouter s)
  | .requestChoice, _ => some .disambiguateSelection
  | .disambiguateSelection, _ => some .showFlights
  | .showFinalFlight, _ => some .endNode
  | .endNode, _ => none

/-- Return of requestChoice once the interrupt primitive yields the resume
    value: the node returns the object holding only the userChoice channel. -/
def cResumeReturn : CNode → String → CUpdate
  | .requestChoice, v => { userChoice := some v }
  | _, _ => {}

def cGraph (env : Env) : WGraph CNode CState CUpdate Prompt :=
  { startNode := .init
    endNode := .endNode
    isEnd := fun c => match c with | .endNode => true | _ => false
    initState := fun q => { input := some q }
    nodeRun := cNodeRun env
    next := cNext
    merge := cMerge
    resumeReturn := cResumeReturn }

/-- Follows the words of the spec, for comparison with the resume protocol: the
    execution in which requestChoice, instead of pausing, synchronously returns
    the object holding only userChoice set to the resume value, after which the
    walk continues along the ordinary edges. -/
def cSyncReturnRun (env : Env) (fuel : Nat) (s : CState) (v : String) :
    Outcome CNode CState Prompt :=
  let s' := cMerge s { userChoice := some v }
  match cNext .requestChoice s' with
  | some c' => runLoop (cGraph env) fuel s' c'
  | none => .routeError s'

/- Linear variant (src/unnamed/part_000 and src/main.js): state schema, graph
   wiring, engine instance. -/

/-- State schema SupportState of the linear variant. -/
structure LinState where
  input : Option String := none
  candidates : Option (List Document) := none
  userChoice : Option String := none
  selected : Option Document := none
  final : Option String := none
deriving DecidableEq, Repr

structure LinUpdate where
  input : Option String := none
  candidates : Option (List Document) := none
  userChoice : Option String := none
  selected : Option Document := none
  final : Option String := none
deriving DecidableEq, Repr

def lMerge (s : LinState) (u : LinUpdate) : LinState where
  input := overwrite s.input u.input
  candidates := overwrite s.candidates u.candidates
  userChoice := overwrite s.userChoice u.userChoice
  selected := overwrite s.selected u.selected
  final := overwrite s.final u.final

inductive LNode where
  | retrieveFlights
  | evaluateResults
  | showResults
  | requestUserChoice
  | disambiguateAndAnswer
  | endNode
deriving DecidableEq, Repr

/-- Node 2 of the linear variant: exactly one candidate is auto-selected and
    the final channel is written; otherwise the candidate list is passed on. -/
def evaluateResults (s : LinState) : LinUpdate :=
  match s.candidates.getD [] with
  | [c] => { selected := some c, final := some (formatFlightDetails c.metadata) }
  | cs => { candidates := some cs }

/-- Routing function of the conditional edge attached to evaluateResults,
    testing truthiness of the final channel. -/
def evaluateResultsRouter (s : LinState) : String :=
  if jsTruthyStr s.final then "complete" else "multiple"

def evaluateResultsMapping : String → Option LNode
  | "complete" => some .endNode
  | "multiple" => some .showResults
  | _ => none

def lNodeRun (env : Env) : LNode → LinState → NodeOutcome LinUpdate Prompt
  | .retrieveFlights, s =>
      .update { candidates := some (pushUntilTwo [] (env.search (s.input.getD "") 5)) }
  | .evaluateResults, s => .update (evaluateResults s)
  | .showResults, s =>
      .update { input := s.input, candidates := s.candidates,
                userChoice := s.userChoice, selected := s.selected, final := s.final }
  | .requestUserChoice, _ => .interrupt ⟨"Which flight do you prefer?:"⟩
  | .disambiguateAndAnswer, s =>
      let candidates := s.candidates.getD []
      let userInput := s.userChoice.getD ""
      match disambiguateAndAnswer candidates (env.llm userInput candidates) with
      | some du => .update { selected := some du.fst, final := some du.snd }
      | none => .fail
  | .endNode, _ => .update {}

def lNext : LNode → LinState → Option LNode
  | .retrieveFlights, _ => some .evaluateResults
  | .evaluateResults, s => evaluateResultsMapping (evaluateResultsRouter s)
  | .showResults, _ => some .requestUserChoice
  | .requestUserChoice, _ => some .disambiguateAndAnswer
  | .disambiguateAndAnswer, _ => some .endNode
  | .endNode, _ => none

def lResumeReturn : LNode → String → LinUpdate
  | .requestUserChoice, v => { userChoice := some v }
  | _, _ => {}

def lGraph (env : Env) : WGraph LNode LinState LinUpdate Prompt :=
  { startNode := .retrieveFlights
    endNode := .endNode
    isEnd := fun c => match c with | .endNode => true | _ => false
    initState := fun q => { input := some q }
    nodeRun := lNodeRun env
    next := lNext
    merge := lMerge
    resumeReturn := lResumeReturn }

/-- Follows the words of the spec, for comparison with the resume protocol: the
    execution in which requestUserChoice synchronously returns the object
    holding only userChoice set to the resume value. -/
def lSyncReturnRun (env : Env) (fuel : Nat) (s : LinState) (v : String) :
    Outcome LNode LinState Prompt :=
  let s' := lMerge s { userChoice := some v }
  match lNext .requestUserChoice s' with
  | some c' => runLoop (lGraph env) fuel s' c'
  | none => .routeError s'

/- Concrete scenario material and projection helpers. -/

def mkDoc (n : Nat) : Document := { pageContent := toString n }

def tenFlights : List Document := (List.range 10).map mkDoc

/-- Interpretation oracle of the narrowing scenario: three successive free-text
    refinements are answered with index lists that keep five, two and one of
    the current candidates. -/
def scenLLM (u : String) (_ : List Document) : String :=
  if u = "to warm places" then "1,2,3,4,5"
  else if u = "under 800" then "1,2"
  else if u = "the first one" then "1"
  else ""

def envC : Env := { search := fun _ _ => tenFlights, llm := scenLLM }

def stepR0 := invoke (cGraph envC) 100 "Flights to Asia" "t1" []
def stepR1 := resume (cGraph envC) 100 "t1" "to warm places" stepR0.snd
def stepR2 := resume (cGraph envC) 100 "t1" "under 800" stepR1.snd
def stepR3 := resume (cGraph envC) 100 "t1" "the first one" stepR2.snd

def suspendedCursor {node state payload : Type} :
    Except CallError (Outcome node state payload) → Option node
  | .ok (.suspended _ _ c) => some c
  | _ => none

def suspendedState {node state payload : Type} :
    Except CallError (Outcome node state payload) → Option state
  | .ok (.suspended s _ _) => some s
  | _ => none

def completedState {node state payload : Type} :
    Except CallError (Outcome node state payload) → Option state
  | .ok (.completed s) => some s
  | _ => none

def isRouteError {node state payload : Type} : Outcome node state payload → Bool
  | .routeError _ => true
  | _ => false

/- Concrete sessions used as evaluation witnesses. -/

def witnessStateC : CState := { input := some "q" }

def witnessStoreC : Store CNode CState Prompt :=
  [("w", ⟨witnessStateC, CNode.requestChoice, some ⟨refineQuestion⟩⟩)]

def witnessStateL : LinState := { input := some "q" }

def witnessStoreL : Store LNode LinState Prompt :=
  [("w", ⟨witnessStateL, LNode.requestUserChoice, some ⟨"Which flight do you prefer?:"⟩⟩)]

/-- Environment whose retrieval returns a single candidate. -/
def envL1 : Env := { search := fun _ _ => [mkDoc 3], llm := fun _ _ => "" }

/-- Suspended session over the ten-flight retrieval, used to resume with 3. -/
def storeTen : Store CNode CState Prompt :=
  [("w", ⟨{ input := some "q", filteredFlights := some tenFlights },
          CNode.requestChoice, some ⟨refineQuestion⟩⟩)]

/-- Suspended session holding a single flight, which the resume value 1 runs to
    completion. -/
def storeOne : Store CNode CState Prompt :=
  [("a", ⟨{ input := some "q", filteredFlights := some [mkDoc 0] },
          CNode.requestChoice, some ⟨refineQuestion⟩⟩)]

/- General helper lemmas about the engine. -/

theorem afterRun_fst {node state upd payload : Type}
    (G : WGraph node state upd payload) (sid : String)
    (store : Store node state payload) (out : Outcome node state payload) :
    (afterRun G sid store out).fst = Except.ok out := by
  cases out <;> rfl

theorem lookupStore_save {k : Type} (store : List (String × k)) (sid : String) (cp : k) :
    lookupStore (saveStore store sid cp) sid = some cp := by
  induction store with
  | nil => simp [saveStore, lookupStore]
  | cons hd tl ih =>
      by_cases h : hd.fst = sid
      · simp [saveStore, h, lookupStore]
      · cases hd with
        | mk a b => simp only [saveStore] at *; simp [h, lookupStore, ih]

theorem runLoop_end {node state upd payload : Type} {G : WGraph node state upd payload}
    {fuel : Nat} {s : state} {c : node} (h : G.isEnd c = true) :
    runLoop G (fuel + 1) s c = .completed s := by
  simp [runLoop, h]

theorem runLoop_update {node state upd payload : Type} {G : WGraph node state upd payload}
    {fuel : Nat} {s : state} {c : node} {u : upd} {c' : node}
    (h1 : G.isEnd c = false) (h2 : G.nodeRun c s = .update u)
    (h3 : G.next c (G.merge s u) = some c') :
    runLoop G (fuel + 1) s c = runLoop G fuel (G.merge s u) c' := by
  simp [runLoop, h1, h2, h3]

theorem runLoop_interrupt {node state upd payload : Type} {G : WGraph node state upd payload}
    {fuel : Nat} {s : state} {c : node} {p : payload}
    (h1 : G.isEnd c = false) (h2 : G.nodeRun c s = .interrupt p) :
    runLoop G (fuel + 1) s c = .suspended s p c := by
  simp [runLoop, h1, h2]

/- Node-level helper lemmas. -/

theorem formatFlightDetails_ne_empty (m : DocumentMetadata) :
    formatFlightDetails m ≠ "" := by
  unfold formatFlightDetails
  intro h
  have hlen := congrArg String.length h
  rw [String.length_append] at hlen
  have h17 : ("Selected flight: " : String).length = 17 := rfl
  have h0 : ("" : String).length = 0 := rfl
  omega

theorem jsTruthyStr_format (m : DocumentMetadata) :
    jsTruthyStr (some (formatFlightDetails m)) = true := by
  simp [jsTruthyStr, formatFlightDetails_ne_empty m]

/-- Numeric fast path of disambiguateSelection: an all-digit user reply whose
    one-based index is in range selects exactly that flight, whatever the LLM
    reply is. -/
theorem disambiguateSelection_numeric {flights : List Document} {userInput : String}
    {k : Int} {d : Document} (h1 : isAllDigits userInput = true)
    (h2 : jsParseInt userInput = some k) (h3 : flights[(k - 1).toNat]? = some d)
    (h4 : 0 ≤ k - 1) (h5 : k - 1 < (flights.length : Int)) (llmContent : String) :
    disambiguateSelection flights userInput llmContent = [d] := by
  unfold disambiguateSelection
  rw [h1]
  simp only [if_true]
  rw [h2]
  simp only [if_pos (And.intro h4 h5)]
  rw [h3]

theorem llmFilter_subset (flights : List Document) (llmContent : String) :
    ∀ d ∈ llmFilter flights llmContent, d ∈ flights := by
  intro d hd
  unfold llmFilter at hd
  rw [List.mem_filterMap] at hd
  obtain ⟨i, _, hi⟩ := hd
  exact List.getElem?_mem hi

theorem disambiguateSelection_subset (flights : List Document)
    (userInput llmContent : String) :
    ∀ d ∈ disambiguateSelection flights userInput llmContent, d ∈ flights := by
  intro d hd
  unfold disambiguateSelection at hd
  by_cases hdig : isAllDigits userInput = true
  · rw [if_pos hdig] at hd
    cases hp : jsParseInt userInput with
    | none =>
        rw [hp] at hd
        exact llmFilter_subset flights llmContent d hd
    | some k =>
        rw [hp] at hd
        dsimp only [] at hd
        by_cases hin : 0 ≤ k - 1 ∧ k - 1 < (flights.length : Int)
        · rw [if_pos hin] at hd
          cases hg : flights[(k - 1).toNat]? with
          | none =>
              rw [hg] at hd
              exact llmFilter_subset flights llmContent d hd
          | some d' =>
              rw [hg] at hd
              rw [List.mem_singleton] at hd
              subst hd
              exact List.getElem?_mem hg
        · rw [if_neg hin] at hd
          exact llmFilter_subset flights llmContent d hd
  · rw [if_neg hdig] at hd
    exact llmFilter_subset flights llmContent d hd

theorem disambiguateAndAnswer_defaults {candidates : List Document}
    (h : candidates ≠ []) (llmContent : String) :
    ∃ d ∈ candidates, disambiguateAndAnswer candidates llmContent =
      some (d, formatFlightDetails d.metadata) := by
  obtain ⟨c, cs, rfl⟩ := List.exists_cons_of_ne_nil h
  unfold disambiguateAndAnswer
  cases hp : jsParseInt llmContent with
  | none =>
      refine ⟨c, List.mem_cons_self c cs, ?_⟩
      simp [List.getElem?_cons_zero]
  | some k =>
      by_cases hin : 0 ≤ k - 1 ∧ k - 1 < ((c :: cs).length : Int)
      · have hlt : (k - 1).toNat < (c :: cs).length := by
          have := hin.2
          omega
        refine ⟨(c :: cs)[(k - 1).toNat], List.getElem_mem hlt, ?_⟩
        simp only [if_pos hin]
        rw [List.getElem?_eq_getElem hlt]
      · refine ⟨c, List.mem_cons_self c cs, ?_⟩
        simp only [if_neg hin]
        simp [List.getElem?_cons_zero]

/- Interrupt/resume protocol lemmas, generic over the workflow graph. -/

theorem resume_no_session {node state upd payload : Type}
    (G : WGraph node state upd payload) (fuel : Nat) (sid v : String)
    {store : Store node state payload}
    (h : lookupStore store sid = none) :
    resume G fuel sid v store = (.error .NoPendingInterruptError, store) := by
  simp [resume, h]

theorem resume_no_pending {node state upd payload : Type}
    (G : WGraph node state upd payload) (fuel : Nat) (sid v : String)
    {store : Store node state payload} {cp : Ckpt node state payload}
    (h : lookupStore store sid = some cp) (hp : cp.pending = none) :
    resume G fuel sid v store = (.error .NoPendingInterruptError, store) := by
  simp [resume, h, hp]

theorem invoke_pending {node state upd payload : Type}
    (G : WGraph node state upd payload) (fuel : Nat) (input sid : String)
    {store : Store node state payload} {cp : Ckpt node state payload} {p : payload}
    (h : lookupStore store sid = some cp) (hp : cp.pending = some p) :
    invoke G fuel input sid store = (.error .ResumeRequiredError, store) := by
  simp [invoke, h, hp]

theorem resume_completed_store {node state upd payload : Type}
    {G : WGraph node state upd payload} {fuel : Nat} {sid v : String}
    {store store' : Store node state payload} {s : state}
    (h : resume G fuel sid v store = (.ok (.completed s), store')) :
    store' = saveStore store sid ⟨s, G.endNode, none⟩ := by
  unfold resume at h
  cases hl : lookupStore store sid with
  | none => rw [hl] at h; simp at h
  | some cp =>
      rw [hl] at h
      dsimp only [] at h
      cases hp : cp.pending with
      | none => rw [hp] at h; simp at h
      | some p =>
          rw [hp] at h
          dsimp only [] at h
          cases hn : G.next cp.cursor (G.merge cp.state (G.resumeReturn cp.cursor v)) with
          | none =>
              rw [hn] at h
              simp [afterRun] at h
          | some c' =>
              rw [hn] at h
              dsimp only [] at h
              cases ho : runLoop G fuel (G.merge cp.state (G.resumeReturn cp.cursor v)) c' with
              | completed s0 =>
                  rw [ho] at h
                  simp [afterRun] at h
                  rw [← h.2, h.1]
              | suspended s0 p0 c0 => rw [ho] at h; simp [afterRun] at h
              | nodeError s0 => rw [ho] at h; simp [afterRun] at h
              | routeError s0 => rw [ho] at h; simp [afterRun] at h
              | fuelOut s0 => rw [ho] at h; simp [afterRun] at h

/-- A session whose resume ran to completion has a cleared checkpoint, so a
    second resume with the same command is rejected and the store is not
    touched. -/
theorem resume_twice {node state upd payload : Type}
    {G : WGraph node state upd payload} {fuel : Nat} {sid v : String}
    {store store' : Store node state payload} {s : state}
    (h : resume G fuel sid v store = (.ok (.completed s), store'))
    (fuel' : Nat) (v' : String) :
    resume G fuel' sid v' store' = (.error .NoPendingInterruptError, store') := by
  have hs := resume_completed_store h
  subst hs
  exact resume_no_pending G fuel' sid v' (lookupStore_save store sid _) rfl

theorem runLoop_fail {node state upd payload : Type} {G : WGraph node state upd payload}
    {fuel : Nat} {s : state} {c : node}
    (h1 : G.isEnd c = false) (h2 : G.nodeRun c s = .fail) :
    runLoop G (fuel + 1) s c = .nodeError s := by
  simp [runLoop, h1, h2]

/- Resume transparency lemmas: resuming equals the synchronous-return run. -/

theorem resume_eq_sync_cyclic (env : Env) (fuel : Nat) (sid v : String)
    {store : Store CNode CState Prompt} {cp : Ckpt CNode CState Prompt} {p : Prompt}
    (h : lookupStore store sid = some cp) (hc : cp.cursor = CNode.requestChoice)
    (hp : cp.pending = some p) :
    (resume (cGraph env) fuel sid v store).fst =
      Except.ok (cSyncReturnRun env fuel cp.state v) := by
  simp [resume, h, hp, hc, cGraph, cResumeReturn, cNext, cSyncReturnRun, afterRun_fst]

theorem resume_eq_sync_linear (env : Env) (fuel : Nat) (sid v : String)
    {store : Store LNode LinState Prompt} {cp : Ckpt LNode LinState Prompt} {p : Prompt}
    (h : lookupStore store sid = some cp) (hc : cp.cursor = LNode.requestUserChoice)
    (hp : cp.pending = some p) :
    (resume (lGraph env) fuel sid v store).fst =
      Except.ok (lSyncReturnRun env fuel cp.state v) := by
  simp [resume, h, hp, hc, lGraph, lResumeReturn, lNext, lSyncReturnRun, afterRun_fst]

/- Router range and totality lemmas. -/

theorem showFlightsRouter_cases (s : CState) :
    showFlightsRouter s = "final" ∨ showFlightsRouter s = "continue" := by
  unfold showFlightsRouter
  by_cases h : (s.filteredFlights.getD []).length = 1
  · exact Or.inl (by rw [if_pos h])
  · exact Or.inr (by rw [if_neg h])

theorem showFlightsRouter_final_iff (s : CState) :
    showFlightsRouter s = "final" ↔ (s.filteredFlights.getD []).length = 1 := by
  unfold showFlightsRouter
  by_cases h : (s.filteredFlights.getD []).length = 1
  · simp [h]
  · simp [h]

theorem evaluateResultsRouter_cases (s : LinState) :
    evaluateResultsRouter s = "complete" ∨ evaluateResultsRouter s = "multiple" := by
  unfold evaluateResultsRouter
  by_cases h : jsTruthyStr s.final = true
  · exact Or.inl (by rw [if_pos h])
  · exact Or.inr (by rw [if_neg h])

theorem cNext_showFlights_some (s : CState) :
    ∃ c', cNext CNode.showFlights s = some c' := by
  rcases showFlightsRouter_cases s with h | h
  · exact ⟨.showFinalFlight, by simp [cNext, h, showFlightsMapping]⟩
  · exact ⟨.requestChoice, by simp [cNext, h, showFlightsMapping]⟩

theorem lNext_evaluateResults_some (s : LinState) :
    ∃ c', lNext LNode.evaluateResults s = some c' := by
  rcases evaluateResultsRouter_cases s with h | h
  · exact ⟨.endNode, by simp [lNext, h, evaluateResultsMapping]⟩
  · exact ⟨.showResults, by simp [lNext, h, evaluateResultsMapping]⟩

/-- Destination lookup never fails during a run of the cyclic graph. -/
theorem cyclic_no_routeError (env : Env) :
    ∀ (fuel : Nat) (s : CState) (c : CNode),
      isRouteError (runLoop (cGraph env) fuel s c) = false := by
  intro fuel
  induction fuel with
  | zero => intro s c; rfl
  | succ n ih =>
      intro s c
      cases c with
      | endNode => rw [runLoop_end rfl]; rfl
      | init => rw [runLoop_update rfl rfl rfl]; exact ih _ _
      | showFlights =>
          obtain ⟨c', hc'⟩ := cNext_showFlights_some (cMerge s (showFlights s))
          rw [runLoop_update rfl rfl hc']
          exact ih _ _
      | requestChoice => rw [runLoop_interrupt rfl rfl]; rfl
      | disambiguateSelection => rw [runLoop_update rfl rfl rfl]; exact ih _ _
      | showFinalFlight => rw [runLoop_update rfl rfl rfl]; exact ih _ _

/-- Destination lookup never fails during a run of the linear graph. -/
theorem linear_no_routeError (env : Env) :
    ∀ (fuel : Nat) (s : LinState) (c : LNode),
      isRouteError (runLoop (lGraph env) fuel s c) = false := by
  intro fuel
  induction fuel with
  | zero => intro s c; rfl
  | succ n ih =>
      intro s c
      cases c with
      | endNode => rw [runLoop_end rfl]; rfl
      | retrieveFlights => rw [runLoop_update rfl rfl rfl]; exact ih _ _
      | evaluateResults =>
          obtain ⟨c', hc'⟩ := lNext_evaluateResults_some (lMerge s (evaluateResults s))
          rw [runLoop_update rfl rfl hc']
          exact ih _ _
      | showResults => rw [runLoop_update rfl rfl rfl]; exact ih _ _
      | requestUserChoice => rw [runLoop_interrupt rfl rfl]; rfl
      | disambiguateAndAnswer =>
          cases hda : disambiguateAndAnswer (s.candidates.getD [])
              (env.llm (s.userChoice.getD "") (s.candidates.getD [])) with
          | none =>
              have h2 : (lGraph env).nodeRun .disambiguateAndAnswer s = .fail := by
                simp [lGraph, lNodeRun, hda]
              rw [runLoop_fail rfl h2]
              rfl
          | some du =>
              have h2 : (lGraph env).nodeRun .disambiguateAndAnswer s =
                  .update { selected := some du.fst, final := some du.snd } := by
                simp [lGraph, lNodeRun, hda]
              rw [runLoop_update rfl h2 rfl]
              exact ih _ _

/- Symbolic runs of the two graphs. -/

/-- A fresh invocation of the cyclic graph whose retrieval does not return
    exactly one flight pauses at requestChoice with the refinement question,
    persisting a checkpoint with the pending interrupt. -/
theorem invoke_suspends_cyclic (env : Env) (q sid : String) (fuel : Nat)
    (hn : (env.search q 10).length ≠ 1) :
    invoke (cGraph env) (fuel + 3) q sid [] =
      (Except.ok (Outcome.suspended
          { input := some q, filteredFlights := some (env.search q 10) }
          ⟨refineQuestion⟩ CNode.requestChoice),
       [(sid, ⟨{ input := some q, filteredFlights := some (env.search q 10) },
               CNode.requestChoice, some ⟨refineQuestion⟩⟩)]) := by
  have e1 : runLoop (cGraph env) (fuel + 3) { input := some q } CNode.init =
      runLoop (cGraph env) (fuel + 2)
        (cMerge { input := some q } { filteredFlights := some (env.search q 10) })
        CNode.showFlights :=
    runLoop_update rfl rfl rfl
  have h3 : (cGraph env).next CNode.showFlights
      (cMerge (cMerge { input := some q } { filteredFlights := some (env.search q 10) })
        { filteredFlights := some (env.search q 10) }) = some CNode.requestChoice := by
    show showFlightsMapping (showFlightsRouter _) = _
    unfold showFlightsRouter
    rw [if_neg]
    · rfl
    · exact hn
  have e2 : runLoop (cGraph env) (fuel + 2)
      (cMerge { input := some q } { filteredFlights := some (env.search q 10) })
      CNode.showFlights =
      runLoop (cGraph env) (fuel + 1)
        (cMerge (cMerge { input := some q } { filteredFlights := some (env.search q 10) })
          { filteredFlights := some (env.search q 10) })
        CNode.requestChoice :=
    runLoop_update rfl rfl h3
  have e3 : runLoop (cGraph env) (fuel + 1)
      (cMerge (cMerge { input := some q } { filteredFlights := some (env.search q 10) })
        { filteredFlights := some (env.search q 10) })
      CNode.requestChoice =
      Outcome.suspended
        (cMerge (cMerge { input := some q } { filteredFlights := some (env.search q 10) })
          { filteredFlights := some (env.search q 10) })
        ⟨refineQuestion⟩ CNode.requestChoice :=
    runLoop_interrupt rfl rfl
  show afterRun (cGraph env) sid []
      (runLoop (cGraph env) (fuel + 3) { input := some q } CNode.init) = _
  rw [e1, e2, e3]
  rfl

/-- Computation of the disambiguation node handler on an arbitrary state. -/
theorem cNodeRun_disambiguate (env : Env) (s : CState) :
    cNodeRun env CNode.disambiguateSelection s =
      .update { filteredFlights := some (disambiguateSelection (s.filteredFlights.getD [])
        (s.userChoice.getD "")
        (env.llm (s.userChoice.getD "") (s.filteredFlights.getD []))) } := rfl

/-- Resuming a session suspended at requestChoice with the reply 3, when the
    flight list has an element at index two, completes the run with exactly the
    third flight selected. -/
theorem resume_three_selects (env : Env) (fuel : Nat) (sid : String)
    (store : Store CNode CState Prompt) (s : CState) (flights : List Document)
    (d3 : Document) (p : Prompt)
    (hl : lookupStore store sid = some ⟨s, CNode.requestChoice, some p⟩)
    (hs : s.filteredFlights = some flights)
    (h3 : flights[2]? = some d3) :
    (resume (cGraph env) (fuel + 4) sid "3" store).fst =
      Except.ok (Outcome.completed
        { s with userChoice := some "3", filteredFlights := some [d3] }) := by
  have hlen : 2 < flights.length := (List.getElem?_eq_some.mp h3).fst
  have hs' : (cMerge s { userChoice := some "3" }).filteredFlights = some flights := hs
  have hu : (cMerge s { userChoice := some "3" }).userChoice = some "3" := rfl
  have hidx : flights[((3 : Int) - 1).toNat]? = some d3 := h3
  have hsel : disambiguateSelection flights "3" (env.llm "3" flights) = [d3] :=
    @disambiguateSelection_numeric flights "3" 3 d3 rfl rfl hidx (by decide)
      (by omega) (env.llm "3" flights)
  have h2 : (cGraph env).nodeRun CNode.disambiguateSelection
      (cMerge s { userChoice := some "3" }) =
      .update { filteredFlights := some [d3] } := by
    rw [show (cGraph env).nodeRun = cNodeRun env from rfl, cNodeRun_disambiguate, hs', hu]
    rw [show (some flights).getD [] = flights from rfl,
        show (some "3").getD "" = "3" from rfl, hsel]
  have e1 : runLoop (cGraph env) (fuel + 4)
      (cMerge s { userChoice := some "3" }) CNode.disambiguateSelection =
      runLoop (cGraph env) (fuel + 3)
        (cMerge (cMerge s { userChoice := some "3" }) { filteredFlights := some [d3] })
        CNode.showFlights :=
    runLoop_update rfl h2 rfl
  have h3b : (cGraph env).next CNode.showFlights
      (cMerge (cMerge (cMerge s { userChoice := some "3" })
          { filteredFlights := some [d3] }) { filteredFlights := some [d3] }) =
      some CNode.showFinalFlight := rfl
  have e2 : runLoop (cGraph env) (fuel + 3)
      (cMerge (cMerge s { userChoice := some "3" }) { filteredFlights := some [d3] })
      CNode.showFlights =
      runLoop (cGraph env) (fuel + 2)
        (cMerge (cMerge (cMerge s { userChoice := some "3" })
            { filteredFlights := some [d3] }) { filteredFlights := some [d3] })
        CNode.showFinalFlight :=
    runLoop_update rfl rfl h3b
  have e3 : runLoop (cGraph env) (fuel + 2)
      (cMerge (cMerge (cMerge s { userChoice := some "3" })
          { filteredFlights := some [d3] }) { filteredFlights := some [d3] })
      CNode.showFinalFlight =
      runLoop (cGraph env) (fuel + 1)
        (cMerge (cMerge (cMerge (cMerge s { userChoice := some "3" })
            { filteredFlights := some [d3] }) { filteredFlights := some [d3] }) {})
        CNode.endNode :=
    runLoop_update rfl rfl rfl
  have e4 : runLoop (cGraph env) (fuel + 1)
      (cMerge (cMerge (cMerge (cMerge s { userChoice := some "3" })
          { filteredFlights := some [d3] }) { filteredFlights := some [d3] }) {})
      CNode.endNode =
      Outcome.completed
        (cMerge (cMerge (cMerge (cMerge s { userChoice := some "3" })
            { filteredFlights := some [d3] }) { filteredFlights := some [d3] }) {}) :=
    runLoop_end rfl
  unfold resume
  rw [hl]
  show (afterRun (cGraph env) sid store
      (runLoop (cGraph env) (fuel + 4)
        (cMerge s { userChoice := some "3" }) CNode.disambiguateSelection)).fst = _
  rw [e1, e2, e3, e4, afterRun_fst]
  rfl

/-- A fresh invocation of the linear graph whose retrieval returns exactly one
    candidate runs straight to the end node: the candidate is auto-selected,
    the final channel is written, and no interrupt is raised. -/
theorem invoke_single_completes (env : Env) (d : Document) (q sid : String)
    (fuel : Nat) (h : env.search q 5 = [d]) :
    invoke (lGraph env) (fuel + 3) q sid [] =
      (Except.ok (Outcome.completed
          { input := some q, candidates := some [d], selected := some d,
            final := some (formatFlightDetails d.metadata) }),
       [(sid, ⟨{ input := some q, candidates := some [d], selected := some d,
                 final := some (formatFlightDetails d.metadata) },
               LNode.endNode, none⟩)]) := by
  have hnr : lNodeRun env LNode.retrieveFlights { input := some q } =
      .update { candidates := some (pushUntilTwo [] (env.search (({ input := some q } : LinState).input.getD "") 5)) } :=
    rfl
  have h2 : (lGraph env).nodeRun LNode.retrieveFlights { input := some q } =
      .update { candidates := some [d] } := by
    rw [show (lGraph env).nodeRun = lNodeRun env from rfl, hnr]
    rw [show (({ input := some q } : LinState).input.getD "") = q from rfl, h]
    rfl
  have e1 : runLoop (lGraph env) (fuel + 3) { input := some q } LNode.retrieveFlights =
      runLoop (lGraph env) (fuel + 2)
        (lMerge { input := some q } { candidates := some [d] })
        LNode.evaluateResults :=
    runLoop_update rfl h2 rfl
  have h3 : (lGraph env).next LNode.evaluateResults
      (lMerge (lMerge { input := some q } { candidates := some [d] })
        { selected := some d, final := some (formatFlightDetails d.metadata) }) =
      some LNode.endNode := by
    show evaluateResultsMapping (evaluateResultsRouter
      (lMerge (lMerge { input := some q } { candidates := some [d] })
        { selected := some d, final := some (formatFlightDetails d.metadata) })) = _
    unfold evaluateResultsRouter
    rw [show (lMerge (lMerge { input := some q } { candidates := some [d] })
        { selected := some d, final := some (formatFlightDetails d.metadata) }).final =
        some (formatFlightDetails d.metadata) from rfl]
    rw [if_pos (jsTruthyStr_format d.metadata)]
    rfl
  have e2 : runLoop (lGraph env) (fuel + 2)
      (lMerge { input := some q } { candidates := some [d] }) LNode.evaluateResults =
      runLoop (lGraph env) (fuel + 1)
        (lMerge (lMerge { input := some q } { candidates := some [d] })
          { selected := some d, final := some (formatFlightDetails d.metadata) })
        LNode.endNode :=
    runLoop_update rfl rfl h3
  have e3 : runLoop (lGraph env) (fuel + 1)
      (lMerge (lMerge { input := some q } { candidates := some [d] })
        { selected := some d, final := some (formatFlightDetails d.metadata) })
      LNode.endNode =
      Outcome.completed
        (lMerge (lMerge { input := some q } { candidates := some [d] })
          { selected := some d, final := some (formatFlightDetails d.metadata) }) :=
    runLoop_end rfl
  show afterRun (lGraph env) sid []
      (runLoop (lGraph env) (fuel + 3) { input := some q } LNode.retrieveFlights) = _
  rw [e1, e2, e3]
  rfl

/- Claim theorems. -/

/-- C1: resuming a suspended session with a value v yields the same outcome as
    an execution in which the interrupted node (requestChoice in the cyclic
    variant, requestUserChoice in the linear variant) synchronously returned
    the partial update holding only userChoice set to v; the node is not run
    again from its beginning and downstream nodes cannot distinguish the two
    runs. -/
theorem C1_resume_transparency :
    (∀ (env : Env) (fuel : Nat) (sid v : String)
        (store : Store CNode CState Prompt) (cp : Ckpt CNode CState Prompt)
        (p : Prompt), lookupStore store sid = some cp →
        cp.cursor = CNode.requestChoice → cp.pending = some p →
        (resume (cGraph env) fuel sid v store).fst =
          Except.ok (cSyncReturnRun env fuel cp.state v)) ∧
    (∀ (env : Env) (fuel : Nat) (sid v : String)
        (store : Store LNode LinState Prompt) (cp : Ckpt LNode LinState Prompt)
        (p : Prompt), lookupStore store sid = some cp →
        cp.cursor = LNode.requestUserChoice → cp.pending = some p →
        (resume (lGraph env) fuel sid v store).fst =
          Except.ok (lSyncReturnRun env fuel cp.state v)) := by
  constructor
  · intro env fuel sid v store cp p h hc hp
    exact resume_eq_sync_cyclic env fuel sid v h hc hp
  · intro env fuel sid v store cp p h hc hp
    exact resume_eq_sync_linear env fuel sid v h hc hp

/-- C1 witness: a concrete suspended session of each variant, resumed and
    compared with the synchronous-return run. -/
theorem C1_resume_transparency_witness :
    (resume (cGraph envC) 5 "w" "one" witnessStoreC).fst =
      Except.ok (cSyncReturnRun envC 5 witnessStateC "one") ∧
    (resume (lGraph envC) 5 "w" "one" witnessStoreL).fst =
      Except.ok (lSyncReturnRun envC 5 witnessStateL "one") :=
  ⟨C1_resume_transparency.1 envC 5 "w" "one" witnessStoreC
      ⟨witnessStateC, CNode.requestChoice, some ⟨refineQuestion⟩⟩ ⟨refineQuestion⟩
      (by decide) rfl rfl,
   C1_resume_transparency.2 envC 5 "w" "one" witnessStoreL
      ⟨witnessStateL, LNode.requestUserChoice, some ⟨"Which flight do you prefer?:"⟩⟩
      ⟨"Which flight do you prefer?:"⟩ (by decide) rfl rfl⟩

/-- C2: the showFlights router of the cyclic graph returns the label final
    exactly when the filteredFlights channel holds one candidate and returns
    continue otherwise; the edges wire disambiguateSelection back to
    showFlights, so the cursor returns to the router each iteration; and in the
    concrete narrowing scenario 10 to 5 to 2 to 1 the engine suspends at
    requestChoice three times, each resume being required, before the third
    resume routes to the terminal path and completes with one candidate. -/
theorem C2_router_cycle_three_resumes :
    (∀ s : CState, showFlightsRouter s = "final" ↔
        (s.filteredFlights.getD []).length = 1) ∧
    (∀ s : CState, showFlightsRouter s = "final" ∨ showFlightsRouter s = "continue") ∧
    showFlightsMapping "final" = some CNode.showFinalFlight ∧
    showFlightsMapping "continue" = some CNode.requestChoice ∧
    (∀ s : CState, cNext CNode.requestChoice s = some CNode.disambiguateSelection) ∧
    (∀ s : CState, cNext CNode.disambiguateSelection s = some CNode.showFlights) ∧
    (∀ s : CState, cNext CNode.showFinalFlight s = some CNode.endNode) ∧
    (suspendedCursor stepR0.fst = some CNode.requestChoice ∧
     (suspendedState stepR0.fst).map (fun s => (s.filteredFlights.getD []).length) =
       some 10 ∧
     suspendedCursor stepR1.fst = some CNode.requestChoice ∧
     (suspendedState stepR1.fst).map (fun s => (s.filteredFlights.getD []).length) =
       some 5 ∧
     suspendedCursor stepR2.fst = some CNode.requestChoice ∧
     (suspendedState stepR2.fst).map (fun s => (s.filteredFlights.getD []).length) =
       some 2 ∧
     (completedState stepR3.fst).map (fun s => s.filteredFlights) =
       some (some [mkDoc 0])) :=
  ⟨showFlightsRouter_final_iff, showFlightsRouter_cases, rfl, rfl,
   fun _ => rfl, fun _ => rfl, fun _ => rfl, by decide⟩

/-- C3 (counterexample): with one candidate and the LLM reply 2 carrying no
    in-range index, disambiguateSelection of src/main.ts produces the empty
    list instead of a selection from the candidate list; and with an empty
    candidate list disambiguateAndAnswer of the linear variant fails (the
    JavaScript indexing of candidates at zero throws), so the node does not
    terminate normally with a selection for every list and reply. -/
theorem C3_no_selection_counterexample :
    disambiguateSelection [mkDoc 0] "pick the nicest" "2" = [] ∧
    disambiguateAndAnswer [] "7" = none := by
  exact ⟨by decide, rfl⟩

/-- C3 (amended): the disambiguation nodes never select outside the candidate
    list, and the only local default is in the linear variant: for a nonempty
    candidate list disambiguateAndAnswer always terminates normally with a
    candidate from the list (falling back to the first one), while
    disambiguateSelection of src/main.ts terminates with a possibly empty
    sublist of the candidates, so an invalid reply yields an empty filter
    result that loops back rather than a default selection. -/
theorem C3_amended_local_handling :
    (∀ (flights : List Document) (userInput llmContent : String),
        ∀ d ∈ disambiguateSelection flights userInput llmContent, d ∈ flights) ∧
    (∀ (candidates : List Document) (llmContent : String), candidates ≠ [] →
        ∃ d ∈ candidates, disambiguateAndAnswer candidates llmContent =
          some (d, formatFlightDetails d.metadata)) :=
  ⟨disambiguateSelection_subset,
   fun _ llmContent h => disambiguateAndAnswer_defaults h llmContent⟩

/-- C3 witness: the amended statement evaluated at concrete inputs. -/
theorem C3_amended_witness :
    (∀ d ∈ disambiguateSelection [mkDoc 0] "1" "", d ∈ [mkDoc 0]) ∧
    (∃ d ∈ [mkDoc 5], disambiguateAndAnswer [mkDoc 5] "abc" =
        some (d, formatFlightDetails d.metadata)) :=
  ⟨C3_amended_local_handling.1 [mkDoc 0] "1" "",
   C3_amended_local_handling.2 [mkDoc 5] "abc" (by decide)⟩

/-- C4: a fresh invocation of the linear graph whose retrieval returns exactly
    one candidate completes in one pass: evaluateResults auto-selects the
    candidate and writes the final channel, the conditional edge routes with
    the label complete straight to the end node, and no interrupt is raised
    (the run never reaches the requestUserChoice node, the only interrupting
    node of the graph). -/
theorem C4_single_candidate_completed :
    ∀ (env : Env) (d : Document) (q sid : String) (fuel : Nat),
      env.search q 5 = [d] →
      invoke (lGraph env) (fuel + 3) q sid [] =
        (Except.ok (Outcome.completed
            { input := some q, candidates := some [d], selected := some d,
              final := some (formatFlightDetails d.metadata) }),
         [(sid, ⟨{ input := some q, candidates := some [d], selected := some d,
                   final := some (formatFlightDetails d.metadata) },
                 LNode.endNode, none⟩)]) :=
  fun env d q sid fuel h => invoke_single_completes env d q sid fuel h

/-- C4 witness: the single-candidate run evaluated on a concrete environment. -/
theorem C4_single_candidate_completed_witness :
    invoke (lGraph envL1) 13 "Flights to Tokyo" "s" [] =
      (Except.ok (Outcome.completed
          { input := some "Flights to Tokyo", candidates := some [mkDoc 3],
            selected := some (mkDoc 3),
            final := some (formatFlightDetails (mkDoc 3).metadata) }),
       [("s", ⟨{ input := some "Flights to Tokyo", candidates := some [mkDoc 3],
                 selected := some (mkDoc 3),
                 final := some (formatFlightDetails (mkDoc 3).metadata) },
               LNode.endNode, none⟩)]) :=
  C4_single_candidate_completed envL1 (mkDoc 3) "Flights to Tokyo" "s" 10 rfl

/-- C5: invoking the cyclic graph on a retrieval of at least three flights
    suspends at requestChoice with the refinement-question payload; resuming a
    session suspended there with the reply 3, when the flight list has a third
    element, completes with exactly that third flight selected; and on an
    all-digit reply whose one-based index is in range the disambiguation node
    picks that flight deterministically, with the same result for every LLM
    reply, so the LLM is never consulted on the numeric fast path. -/
theorem C5_resume_three_selects_third :
    (∀ (env : Env) (q sid : String) (fuel : Nat),
        3 ≤ (env.search q 10).length →
        invoke (cGraph env) (fuel + 3) q sid [] =
          (Except.ok (Outcome.suspended
              { input := some q, filteredFlights := some (env.search q 10) }
              ⟨refineQuestion⟩ CNode.requestChoice),
           [(sid, ⟨{ input := some q, filteredFlights := some (env.search q 10) },
                   CNode.requestChoice, some ⟨refineQuestion⟩⟩)])) ∧
    (∀ (env : Env) (fuel : Nat) (sid : String) (store : Store CNode CState Prompt)
        (s : CState) (flights : List Document) (d3 : Document) (p : Prompt),
        lookupStore store sid = some ⟨s, CNode.requestChoice, some p⟩ →
        s.filteredFlights = some flights → flights[2]? = some d3 →
        (resume (cGraph env) (fuel + 4) sid "3" store).fst =
          Except.ok (Outcome.completed
            { s with userChoice := some "3", filteredFlights := some [d3] })) ∧
    (∀ (flights : List Document) (userInput llmA llmB : String) (k : Int)
        (d : Document),
        isAllDigits userInput = true → jsParseInt userInput = some k →
        flights[(k - 1).toNat]? = some d → 0 ≤ k - 1 →
        k - 1 < (flights.length : Int) →
        disambiguateSelection flights userInput llmA = [d] ∧
        disambiguateSelection flights userInput llmA =
          disambiguateSelection flights userInput llmB) := by
  refine ⟨?_, ?_, ?_⟩
  · intro env q sid fuel h3
    exact invoke_suspends_cyclic env q sid fuel (by omega)
  · intro env fuel sid store s flights d3 p hl hs h3
    exact resume_three_selects env fuel sid store s flights d3 p hl hs h3
  · intro flights userInput llmA llmB k d h1 h2 h3 h4 h5
    refine ⟨@disambiguateSelection_numeric flights userInput k d h1 h2 h3 h4 h5 llmA, ?_⟩
    rw [@disambiguateSelection_numeric flights userInput k d h1 h2 h3 h4 h5 llmA,
        @disambiguateSelection_numeric flights userInput k d h1 h2 h3 h4 h5 llmB]

/-- C5 witness: the scenario evaluated on the concrete ten-flight session. -/
theorem C5_resume_three_selects_third_witness :
    invoke (cGraph envC) 3 "Flights to Asia" "w" [] =
      (Except.ok (Outcome.suspended
          { input := some "Flights to Asia", filteredFlights := some tenFlights }
          ⟨refineQuestion⟩ CNode.requestChoice),
       [("w", ⟨{ input := some "Flights to Asia", filteredFlights := some tenFlights },
               CNode.requestChoice, some ⟨refineQuestion⟩⟩)]) ∧
    (resume (cGraph envC) 4 "w" "3" storeTen).fst =
      Except.ok (Outcome.completed
        { input := some "q", filteredFlights := some [mkDoc 2],
          userChoice := some "3" }) ∧
    (disambiguateSelection tenFlights "3" "ignored-a" = [mkDoc 2] ∧
     disambiguateSelection tenFlights "3" "ignored-a" =
       disambiguateSelection tenFlights "3" "ignored-b") := by
  refine ⟨?_, ?_, ?_⟩
  · exact C5_resume_three_selects_third.1 envC "Flights to Asia" "w" 0 (by decide)
  · exact C5_resume_three_selects_third.2.1 envC 0 "w" storeTen
      { input := some "q", filteredFlights := some tenFlights } tenFlights
      (mkDoc 2) ⟨refineQuestion⟩ (by decide) rfl (by decide)
  · exact C5_resume_three_selects_third.2.2 tenFlights "3" "ignored-a" "ignored-b" 3
      (mkDoc 2) rfl rfl (by decide) (by decide) (by decide)

/-- C6: a resume call against a session whose checkpoint has no pending
    interrupt fails with NoPendingInterruptError and leaves the store
    untouched; a plain invoke against a session with a pending interrupt fails
    with ResumeRequiredError and leaves the store untouched; and after a resume
    has run a session to completion, a second resume with the same command
    fails with NoPendingInterruptError without touching the store; the same
    protocol holds for the linear variant. -/
theorem C6_protocol_errors :
    (∀ (env : Env) (fuel : Nat) (sid v : String) (store : Store CNode CState Prompt)
        (cp : Ckpt CNode CState Prompt), lookupStore store sid = some cp →
        cp.pending = none →
        resume (cGraph env) fuel sid v store =
          (.error .NoPendingInterruptError, store)) ∧
    (∀ (env : Env) (fuel : Nat) (input sid : String)
        (store : Store CNode CState Prompt) (cp : Ckpt CNode CState Prompt)
        (p : Prompt), lookupStore store sid = some cp → cp.pending = some p →
        invoke (cGraph env) fuel input sid store =
          (.error .ResumeRequiredError, store)) ∧
    (∀ (env : Env) (fuel fuel2 : Nat) (sid v v2 : String)
        (store store2 : Store CNode CState Prompt) (s : CState),
        resume (cGraph env) fuel sid v store = (.ok (.completed s), store2) →
        resume (cGraph env) fuel2 sid v2 store2 =
          (.error .NoPendingInterruptError, store2)) ∧
    (∀ (env : Env) (fuel : Nat) (sid v : String) (store : Store LNode LinState Prompt)
        (cp : Ckpt LNode LinState Prompt), lookupStore store sid = some cp →
        cp.pending = none →
        resume (lGraph env) fuel sid v store =
          (.error .NoPendingInterruptError, store)) ∧
    (∀ (env : Env) (fuel : Nat) (input sid : String)
        (store : Store LNode LinState Prompt) (cp : Ckpt LNode LinState Prompt)
        (p : Prompt), lookupStore store sid = some cp → cp.pending = some p →
        invoke (lGraph env) fuel input sid store =
          (.error .ResumeRequiredError, store)) := by
  refine ⟨?_, ?_, ?_, ?_, ?_⟩
  · intro env fuel sid v store cp h hp
    exact resume_no_pending (cGraph env) fuel sid v h hp
  · intro env fuel input sid store cp p h hp
    exact invoke_pending (cGraph env) fuel input sid h hp
  · intro env fuel fuel2 sid v v2 store store2 s h
    exact resume_twice h fuel2 v2
  · intro env fuel sid v store cp h hp
    exact resume_no_pending (lGraph env) fuel sid v h hp
  · intro env fuel input sid store cp p h hp
    exact invoke_pending (lGraph env) fuel input sid h hp

/-- C6 witness: the three protocol failures evaluated on concrete sessions of
    both variants. -/
theorem C6_protocol_errors_witness :
    resume (cGraph envC) 9 "a" "x" [("a", ⟨witnessStateC, CNode.endNode, none⟩)] =
      (.error .NoPendingInterruptError, [("a", ⟨witnessStateC, CNode.endNode, none⟩)]) ∧
    invoke (cGraph envC) 9 "again" "w" witnessStoreC =
      (.error .ResumeRequiredError, witnessStoreC) ∧
    resume (cGraph envC) 7 "a" "anything" [("a",
        ⟨{ input := some "q", filteredFlights := some [mkDoc 0], userChoice := some "1" },
         CNode.endNode, none⟩)] =
      (.error .NoPendingInterruptError, [("a",
        ⟨{ input := some "q", filteredFlights := some [mkDoc 0], userChoice := some "1" },
         CNode.endNode, none⟩)]) ∧
    resume (lGraph envC) 9 "a" "x" [("a", ⟨witnessStateL, LNode.endNode, none⟩)] =
      (.error .NoPendingInterruptError, [("a", ⟨witnessStateL, LNode.endNode, none⟩)]) ∧
    invoke (lGraph envC) 9 "again" "w" witnessStoreL =
      (.error .ResumeRequiredError, witnessStoreL) := by
  refine ⟨?_, ?_, ?_, ?_, ?_⟩
  · exact C6_protocol_errors.1 envC 9 "a" "x" _ ⟨witnessStateC, CNode.endNode, none⟩
      (by decide) rfl
  · exact C6_protocol_errors.2.1 envC 9 "again" "w" witnessStoreC
      ⟨witnessStateC, CNode.requestChoice, some ⟨refineQuestion⟩⟩ ⟨refineQuestion⟩
      (by decide) rfl
  · exact C6_protocol_errors.2.2.1 envC 10 7 "a" "1" "anything" storeOne _
      { input := some "q", filteredFlights := some [mkDoc 0], userChoice := some "1" }
      (by decide)
  · exact C6_protocol_errors.2.2.2.1 envC 9 "a" "x" _
      ⟨witnessStateL, LNode.endNode, none⟩ (by decide) rfl
  · exact C6_protocol_errors.2.2.2.2 envC 9 "again" "w" witnessStoreL
      ⟨witnessStateL, LNode.requestUserChoice, some ⟨"Which flight do you prefer?:"⟩⟩
      ⟨"Which flight do you prefer?:"⟩ (by decide) rfl

/-- C7: every label the two routing functions can produce appears in the
    corresponding label mapping: the showFlights router only ever returns final
    or continue, both attained and both mapped, and the evaluateResults router
    only ever returns complete or multiple, both attained and both mapped; as a
    consequence destination lookup by label never fails during any run of
    either graph, at any fuel, state and cursor. -/
theorem C7_router_label_totality :
    (∀ s : CState, showFlightsRouter s = "final" ∨ showFlightsRouter s = "continue") ∧
    (∀ s : CState, (showFlightsMapping (showFlightsRouter s)).isSome = true) ∧
    showFlightsRouter { filteredFlights := some [mkDoc 0] } = "final" ∧
    showFlightsRouter {} = "continue" ∧
    (∀ s : LinState,
        evaluateResultsRouter s = "complete" ∨ evaluateResultsRouter s = "multiple") ∧
    (∀ s : LinState, (evaluateResultsMapping (evaluateResultsRouter s)).isSome = true) ∧
    evaluateResultsRouter { final := some "x" } = "complete" ∧
    evaluateResultsRouter {} = "multiple" ∧
    (∀ (env : Env) (fuel : Nat) (s : CState) (c : CNode),
        isRouteError (runLoop (cGraph env) fuel s c) = false) ∧
    (∀ (env : Env) (fuel : Nat) (s : LinState) (c : LNode),
        isRouteError (runLoop (lGraph env) fuel s c) = false) := by
  refine ⟨showFlightsRouter_cases, ?_, by decide, by decide,
      evaluateResultsRouter_cases, ?_, by decide, by decide,
      fun env => cyclic_no_routeError env, fun env => linear_no_routeError env⟩
  · intro s
    rcases showFlightsRouter_cases s with h | h <;> rw [h] <;> rfl
  · intro s
    rcases evaluateResultsRouter_cases s with h | h <;> rw [h] <;> rfl

/-- C8: channels absent from a partial update keep their prior values after the
    merge: the update requestChoice returns on resume holds only userChoice, so
    filteredFlights and input are unchanged across its suspend and resume;
    any update not carrying filteredFlights leaves that channel unchanged;
    requestChoice makes no update before interrupting, so suspension itself
    leaves the state untouched; and retrieveFlights returns only the
    candidates channel, leaving input and userChoice unchanged. -/
theorem C8_merge_frame_conditions :
    (∀ (s : CState) (v : String),
        (cMerge s (cResumeReturn CNode.requestChoice v)).filteredFlights =
            s.filteredFlights ∧
        (cMerge s (cResumeReturn CNode.requestChoice v)).input = s.input ∧
        (cMerge s (cResumeReturn CNode.requestChoice v)).userChoice = some v) ∧
    (∀ (s : CState) (u : CUpdate), u.filteredFlights = none →
        (cMerge s u).filteredFlights = s.filteredFlights) ∧
    (∀ (env : Env) (s : CState),
        cNodeRun env CNode.requestChoice s = .interrupt ⟨refineQuestion⟩) ∧
    (∀ (env : Env) (s : LinState),
        lNodeRun env LNode.retrieveFlights s =
          .update { candidates := some (pushUntilTwo [] (env.search (s.input.getD "") 5)) }) ∧
    (∀ (s : LinState) (cands : List Document),
        (lMerge s { candidates := some cands }).input = s.input ∧
        (lMerge s { candidates := some cands }).userChoice = s.userChoice) := by
  refine ⟨fun s v => ⟨rfl, rfl, rfl⟩, ?_, fun env s => rfl, fun env s => rfl,
      fun s cands => ⟨rfl, rfl⟩⟩
  intro s u h
  show overwrite s.filteredFlights u.filteredFlights = s.filteredFlights
  rw [h]
  rfl

/-- C8 witness: the frame conditions evaluated at a concrete state and update. -/
theorem C8_merge_frame_conditions_witness :
    ((cMerge witnessStateC (cResumeReturn CNode.requestChoice "z")).filteredFlights =
        witnessStateC.filteredFlights ∧
     (cMerge witnessStateC (cResumeReturn CNode.requestChoice "z")).input =
        witnessStateC.input ∧
     (cMerge witnessStateC (cResumeReturn CNode.requestChoice "z")).userChoice =
        some "z") ∧
    (cMerge witnessStateC { userChoice := some "z" }).filteredFlights =
      witnessStateC.filteredFlights :=
  ⟨C8_merge_frame_conditions.1 witnessStateC "z",
   C8_merge_frame_conditions.2.1 witnessStateC { userChoice := some "z" } rfl⟩

/-- C9: the retrieval node of the linear variant asks the store for five
    results but keeps at most two: its truncation loop returns exactly the
    first two retrieved documents, so the candidate list has length equal to
    the minimum of the result count and two. -/
theorem C9_retrieval_truncates_to_two :
    ∀ results : List Document,
      pushUntilTwo [] results = results.take 2 ∧
      (pushUntilTwo [] results).length = min results.length 2 := by
  intro results
  match results with
  | [] => exact ⟨rfl, rfl⟩
  | [a] => exact ⟨rfl, rfl⟩
  | a :: b :: t =>
      refine ⟨rfl, ?_⟩
      rw [show pushUntilTwo [] (a :: b :: t) = [a, b] from rfl]
      simp [List.length_cons]

/-- C10: the only edge of the cyclic graph that reaches showFinalFlight is the
    final label of the showFlights router, which is emitted exactly when the
    filteredFlights channel holds one flight; hence whenever the cursor moves
    to showFinalFlight the list has exactly one element, its first element is
    defined, and the no-flight error branch of showFinalFlight is not taken. -/
theorem C10_showFinalFlight_precondition :
    ∀ (s : CState) (c : CNode), cNext c s = some CNode.showFinalFlight →
      (s.filteredFlights.getD []).length = 1 ∧ showFinalFlightNoFlight s = false := by
  intro s c h
  cases c with
  | init => simp [cNext] at h
  | requestChoice => simp [cNext] at h
  | disambiguateSelection => simp [cNext] at h
  | showFinalFlight => simp [cNext] at h
  | endNode => simp [cNext] at h
  | showFlights =>
      have hf : showFlightsRouter s = "final" := by
        rcases showFlightsRouter_cases s with hr | hr
        · exact hr
        · rw [show cNext CNode.showFlights s =
              showFlightsMapping (showFlightsRouter s) from rfl, hr] at h
          simp [showFlightsMapping] at h
      have hlen := (showFlightsRouter_final_iff s).mp hf
      refine ⟨hlen, ?_⟩
      unfold showFinalFlightNoFlight
      cases hx : s.filteredFlights.getD [] with
      | nil => rw [hx] at hlen; simp at hlen
      | cons a t => simp

/-- C10 witness: the precondition evaluated at a concrete one-flight state. -/
theorem C10_showFinalFlight_precondition_witness :
    (({ filteredFlights := some [mkDoc 0] } : CState).filteredFlights.getD []).length = 1 ∧
    showFinalFlightNoFlight { filteredFlights := some [mkDoc 0] } = false :=
  C10_showFinalFlight_precondition { filteredFlights := some [mkDoc 0] }
    CNode.showFlights (by decide)
